import Mathlib

/-!
Verification of the quickwit leaf-search engine (quickwit-search/src/leaf.rs,
quickwit-common/src/thread_pool.rs) against its natural-language specification.
The Rust data model and operations are shallowly embedded as executable Lean
definitions; theorems about them settle the specification claims.
-/

namespace Quickwit

/-- Shallow embedding of std::ops::Bound, as used throughout leaf.rs. -/
inductive Bound (α : Type) where
  | unbounded
  | included (x : α)
  | excluded (x : α)
deriving DecidableEq, Repr

/-- tantivy::DateTime is stored as a number of nanoseconds since epoch;
we embed it as an integer nanosecond count. -/
abbrev DateTime := Int

/-- DateTime::from_timestamp_secs : seconds to nanoseconds. -/
def fromTimestampSecs (secs : Int) : DateTime := secs * 1000000000

/-- DateTime::into_timestamp_nanos : the stored nanosecond count. -/
def intoTimestampNanos (dt : DateTime) : Int := dt

/-- quickwit_query::JsonLiteral as it occurs in range-query bounds.
`num n` is an integer JSON literal (what the rewrite emits for nanosecond
bounds); `abstractLit p` abstracts any other literal (strings, floats) by the
result `p` of the external date-time parser on it. -/
inductive JsonLiteral where
  | num (n : Int)
  | abstractLit (p : Option Int)
deriving DecidableEq, Repr

/-- Modelled from the spec: numeric time literals are interpreted with
magnitude-based unit auto-detection (seconds / milliseconds / microseconds /
nanoseconds), mirroring quickwit-datetime, which is not under src/. The
detected value is returned in nanoseconds. -/
def detectTimestampNanos (n : Int) : Int :=
  if n.natAbs < 100000000000 then n * 1000000000
  else if n.natAbs < 100000000000000 then n * 1000000
  else if n.natAbs < 100000000000000000 then n * 1000
  else n

/-- Modelled from the spec: DateTime::interpret_json (quickwit-query, not under
src/) parses a JSON literal into a DateTime, or fails; non-numeric literals are
abstracted by their parse result. -/
def interpretJson : JsonLiteral → Option DateTime
  | JsonLiteral.num n => some (detectTimestampNanos n)
  | JsonLiteral.abstractLit p => p

/-- quickwit_query::query_ast::RangeQuery (the fields leaf.rs uses). -/
structure RangeQuery where
  field : String
  lower_bound : Bound JsonLiteral
  upper_bound : Bound JsonLiteral
deriving DecidableEq, Repr

/-- quickwit_query::query_ast::TermQuery (treated opaquely by the rewrite). -/
structure TermQuery where
  field : String
  value : String
deriving DecidableEq, Repr

/-- quickwit_query::query_ast::QueryAst, restricted to the variants the
rewrite in leaf.rs distinguishes. A Bool query carries, in source order, its
must, must_not, should and filter sub-queries. -/
inductive QueryAst where
  | matchAll
  | term (t : TermQuery)
  | range (r : RangeQuery)
  | bool (must mustNot should filter : List QueryAst)
deriving Repr

/-- SortOrder from the search proto. -/
inductive SortOrder where
  | asc
  | desc
deriving DecidableEq, Repr

/-- One entry of SearchRequest.sort_fields. -/
structure SortField where
  field_name : String
  sort_order : SortOrder
deriving DecidableEq, Repr

/-- CountHits from the search proto. -/
inductive CountHits where
  | countAll
  | underestimate
deriving DecidableEq, Repr

/-- Modelled from the spec: the aggregation request is an opaque JSON string;
what leaf.rs inspects is whether it parses to the trace-id aggregation
(crate::QuickwitAggregations, not under src/). `otherAggregation` covers every
other parse result. -/
inductive QuickwitAggregations where
  | findTraceIdsAggregation (span_timestamp_field_name : String)
  | otherAggregation
deriving DecidableEq, Repr

/-- SplitIdAndFooterOffsets from the search proto (the fields leaf.rs uses).
Timestamp bounds are inclusive seconds. -/
structure SplitIdAndFooterOffsets where
  split_id : String
  split_footer_start : Nat
  split_footer_end : Nat
  timestamp_start : Option Int
  timestamp_end : Option Int
deriving DecidableEq, Repr

/-- Modelled from the spec: the prost-generated getter for the optional
timestamp_start field (codegen not under src/), defaulting when absent. -/
def SplitIdAndFooterOffsets.timestamp_start_get (s : SplitIdAndFooterOffsets) : Int :=
  s.timestamp_start.getD 0

/-- Modelled from the spec: the prost-generated getter for the optional
timestamp_end field (codegen not under src/), defaulting when absent. -/
def SplitIdAndFooterOffsets.timestamp_end_get (s : SplitIdAndFooterOffsets) : Int :=
  s.timestamp_end.getD 0

/-- SearchRequest (the semantic fields leaf.rs uses). `query_ast` is a JSON
string in the source; we embed it by its parse result, `none` standing for a
string that fails JSON deserialization. `aggregation_request` is likewise
embedded by its parse result. -/
structure SearchRequest where
  query_ast : Option QueryAst
  start_timestamp : Option Int
  end_timestamp : Option Int
  max_hits : Nat
  start_offset : Nat
  sort_fields : List SortField
  aggregation_request : Option QuickwitAggregations
  count_hits : CountHits
deriving Repr

/-- leaf.rs map_bound: Bound::map for stable Rust. -/
def map_bound {α β : Type} (bound : Bound α) (f : α → β) : Bound β :=
  match bound with
  | Bound.unbounded => Bound.unbounded
  | Bound.included x => Bound.included (f x)
  | Bound.excluded x => Bound.excluded (f x)

/-- leaf.rs max_bound: the max of left and right that is not unbounded;
used to intersect lower bounds of ranges. -/
def max_bound {α : Type} [LinearOrder α] : Bound α → Bound α → Bound α
  | Bound.unbounded, right => right
  | left, Bound.unbounded => left
  | Bound.included l, Bound.included r => Bound.included (max l r)
  | Bound.excluded l, Bound.excluded r => Bound.excluded (max l r)
  | Bound.excluded e, Bound.included i =>
      if i > e then Bound.included i else Bound.excluded e
  | Bound.included i, Bound.excluded e =>
      if i > e then Bound.included i else Bound.excluded e

/-- leaf.rs min_bound: the min of left and right that is not unbounded;
used to intersect upper bounds of ranges. -/
def min_bound {α : Type} [LinearOrder α] : Bound α → Bound α → Bound α
  | Bound.unbounded, right => right
  | left, Bound.unbounded => left
  | Bound.included l, Bound.included r => Bound.included (min l r)
  | Bound.excluded l, Bound.excluded r => Bound.excluded (min l r)
  | Bound.excluded e, Bound.included i =>
      if i < e then Bound.included i else Bound.excluded e
  | Bound.included i, Bound.excluded e =>
      if i < e then Bound.included i else Bound.excluded e

/-- The RemoveTimestampRange visitor of leaf.rs: the timestamp field name and
the accumulated lower/upper time bounds. -/
structure RemoveTimestampRange where
  timestamp_field : String
  start_timestamp : Bound DateTime
  end_timestamp : Bound DateTime
deriving DecidableEq, Repr

/-- RemoveTimestampRange::update_start_timestamp: interpret the literal and
merge it into the accumulated lower bound with max_bound; an unparseable
literal is skipped. -/
def update_start_timestamp (v : RemoveTimestampRange) (lower_bound : JsonLiteral)
    (included : Bool) : RemoveTimestampRange :=
  match interpretJson lower_bound with
  | none => v
  | some lb =>
    let bound := if included then Bound.included lb else Bound.excluded lb
    { v with start_timestamp := max_bound v.start_timestamp bound }

/-- RemoveTimestampRange::update_end_timestamp: interpret the literal and
merge it into the accumulated upper bound with min_bound. -/
def update_end_timestamp (v : RemoveTimestampRange) (upper_bound : JsonLiteral)
    (included : Bool) : RemoveTimestampRange :=
  match interpretJson upper_bound with
  | none => v
  | some ub =>
    let bound := if included then Bound.included ub else Bound.excluded ub
    { v with end_timestamp := min_bound v.end_timestamp bound }

/-- RemoveTimestampRange::transform_range: a range on the timestamp field is
folded into the accumulator and replaced by MatchAll; other ranges are kept. -/
def transform_range (v : RemoveTimestampRange) (range_query : RangeQuery) :
    Option QueryAst × RemoveTimestampRange :=
  if range_query.field = v.timestamp_field then
    let v1 := match range_query.lower_bound with
      | Bound.included lb => update_start_timestamp v lb true
      | Bound.excluded lb => update_start_timestamp v lb false
      | Bound.unbounded => v
    let v2 := match range_query.upper_bound with
      | Bound.included ub => update_end_timestamp v1 ub true
      | Bound.excluded ub => update_end_timestamp v1 ub false
      | Bound.unbounded => v1
    (some QueryAst.matchAll, v2)
  else
    (some (QueryAst.range range_query), v)

mutual

/-- The QueryAstTransformer walk of the RemoveTimestampRange visitor: Bool
nodes recurse only into the strictly-positive must and filter children
(should and must_not are left untouched), ranges go through transform_range,
terms and MatchAll are kept. -/
def transform (v : RemoveTimestampRange) : QueryAst → Option QueryAst × RemoveTimestampRange
  | QueryAst.matchAll => (some QueryAst.matchAll, v)
  | QueryAst.term t => (some (QueryAst.term t), v)
  | QueryAst.range r => transform_range v r
  | QueryAst.bool must mustNot should filter =>
    let resMust := transformList v must
    let resFilter := transformList resMust.2 filter
    (some (QueryAst.bool resMust.1 mustNot should resFilter.1), resFilter.2)

/-- Transforms a list of sub-queries left to right, threading the visitor
state and dropping children mapped to none (transform_bool's filter_map). -/
def transformList (v : RemoveTimestampRange) : List QueryAst → List QueryAst × RemoveTimestampRange
  | [] => ([], v)
  | q :: rest =>
    let resq := transform v q
    let resRest := transformList resq.2 rest
    (match resq.1 with
     | some x => x :: resRest.1
     | none => resRest.1, resRest.2)

end

/-- The request-level start bound: start_timestamp is inclusive seconds
(leaf.rs lines 491-495). -/
def requestStartBound (search_request : SearchRequest) : Bound DateTime :=
  match search_request.start_timestamp with
  | some s => Bound.included (fromTimestampSecs s)
  | none => Bound.unbounded

/-- The request-level end bound: end_timestamp is exclusive seconds
(leaf.rs lines 496-500). -/
def requestEndBound (search_request : SearchRequest) : Bound DateTime :=
  match search_request.end_timestamp with
  | some s => Bound.excluded (fromTimestampSecs s)
  | none => Bound.unbounded

/-- The final lower bound kept in the emitted range (leaf.rs lines 512-532):
an accumulated Included bound survives iff it is strictly above the split's
inclusive start, an Excluded bound iff it is at or above it; a dropped bound
becomes Unbounded; with no split start bound the accumulated bound is kept. -/
def finalStartTimestamp : Bound DateTime → Option DateTime → Bound DateTime
  | Bound.included query_ts, some split_ts =>
      if query_ts > split_ts then Bound.included query_ts else Bound.unbounded
  | Bound.excluded query_ts, some split_ts =>
      if query_ts ≥ split_ts then Bound.excluded query_ts else Bound.unbounded
  | Bound.unbounded, some _ => Bound.unbounded
  | ts, none => ts

/-- The final upper bound kept in the emitted range (leaf.rs lines 533-553),
mirror of finalStartTimestamp against the split's inclusive end. -/
def finalEndTimestamp : Bound DateTime → Option DateTime → Bound DateTime
  | Bound.included query_ts, some split_ts =>
      if query_ts < split_ts then Bound.included query_ts else Bound.unbounded
  | Bound.excluded query_ts, some split_ts =>
      if query_ts ≤ split_ts then Bound.excluded query_ts else Bound.unbounded
  | Bound.unbounded, some _ => Bound.unbounded
  | ts, none => ts

/-- leaf.rs remove_redundant_timestamp_range: fold every timestamp range of
the AST's strictly-positive positions and the request-level window into one
accumulated range, intersect it with the split's bounds, and re-emit any
surviving bound as a single nanosecond Range in the top-level Bool's filter
(wrapping in a fresh Bool when the top level is a pure should-Bool, or is not
a Bool). An unparseable query_ast (embedded as none) returns the request
unchanged. The leaf result cache put is a side effect outside this model. -/
def remove_redundant_timestamp_range (search_request : SearchRequest)
    (split : SplitIdAndFooterOffsets) (timestamp_field : String) : SearchRequest :=
  match search_request.query_ast with
  | none => search_request
  | some query_ast =>
    let visitor : RemoveTimestampRange :=
      ⟨timestamp_field, requestStartBound search_request, requestEndBound search_request⟩
    let res := transform visitor query_ast
    let new_ast := res.1.getD QueryAst.matchAll
    let final_start_timestamp :=
      finalStartTimestamp res.2.start_timestamp (split.timestamp_start.map fromTimestampSecs)
    let final_end_timestamp :=
      finalEndTimestamp res.2.end_timestamp (split.timestamp_end.map fromTimestampSecs)
    let new_ast2 :=
      if final_start_timestamp ≠ Bound.unbounded ∨ final_end_timestamp ≠ Bound.unbounded then
        let range : RangeQuery :=
          ⟨timestamp_field,
           map_bound final_start_timestamp (fun b => JsonLiteral.num (intoTimestampNanos b)),
           map_bound final_end_timestamp (fun b => JsonLiteral.num (intoTimestampNanos b))⟩
        match new_ast with
        | QueryAst.bool must mustNot should filter =>
          if must.isEmpty && filter.isEmpty && !should.isEmpty then
            QueryAst.bool [QueryAst.bool must mustNot should filter] [] [] [QueryAst.range range]
          else
            QueryAst.bool must mustNot should (filter ++ [QueryAst.range range])
        | other => QueryAst.bool [other] [] [] [QueryAst.range range]
      else new_ast
    { search_request with
        query_ast := some new_ast2, start_timestamp := none, end_timestamp := none }

/-- leaf.rs rewrite_request: strip sort fields when no hits are requested,
then remove the redundant timestamp range when a timestamp field exists. -/
def rewrite_request (search_request : SearchRequest) (split : SplitIdAndFooterOffsets)
    (timestamp_field : Option String) : SearchRequest :=
  let search_request :=
    if search_request.max_hits = 0 then { search_request with sort_fields := [] }
    else search_request
  match timestamp_field with
  | some tf => remove_redundant_timestamp_range search_request split tf
  | none => search_request

/-- Modelled from the spec: an i64 sort value of a partial hit, as exposed by
the prost getter PartialHit::sort_value (codegen not under src/); non-i64
values are abstracted by otherValue. -/
inductive SortValue where
  | i64 (v : Int)
  | otherValue
deriving DecidableEq, Repr

/-- Modelled from the spec: a partial hit {split_id, segment, doc,
sort_value?} (the proto message is not under src/). -/
structure PartialHit where
  split_id : String
  segment_ord : Nat
  doc_id : Nat
  sort_value : Option SortValue
deriving DecidableEq, Repr

/-- leaf.rs CanSplitDoBetter: the split filter variants, each optionally
carrying the last recorded worst-hit bound. -/
inductive CanSplitDoBetter where
  | uninformative
  | splitIdHigher (split_id : Option String)
  | splitTimestampHigher (timestamp : Option Int)
  | splitTimestampLower (timestamp : Option Int)
  | findTraceIdsAggregation (timestamp : Option Int)
deriving DecidableEq, Repr

/-- The arm of CanSplitDoBetter::from_request after the trace-id early
return: empty sort_fields give SplitIdHigher, a first sort field equal to the
timestamp field gives SplitTimestampHigher/Lower by order, anything else is
Uninformative. -/
def CanSplitDoBetter.from_request_sort_fields (request : SearchRequest)
    (timestamp_field_name : Option String) : CanSplitDoBetter :=
  match request.sort_fields, timestamp_field_name with
  | [], _ => CanSplitDoBetter.splitIdHigher none
  | sort_by :: _, some timestamp_field =>
    if sort_by.field_name = timestamp_field then
      if sort_by.sort_order = SortOrder.desc then CanSplitDoBetter.splitTimestampHigher none
      else CanSplitDoBetter.splitTimestampLower none
    else CanSplitDoBetter.uninformative
  | _ :: _, none => CanSplitDoBetter.uninformative

/-- CanSplitDoBetter::from_request: with max_hits == 0 and an aggregation
request parsing to the trace-id aggregation whose span timestamp field matches
the timestamp field, return FindTraceIdsAggregation(None) early; otherwise
fall through to the sort-field logic. -/
def CanSplitDoBetter.from_request (request : SearchRequest)
    (timestamp_field_name : Option String) : CanSplitDoBetter :=
  if request.max_hits = 0 then
    match request.aggregation_request with
    | some (QuickwitAggregations.findTraceIdsAggregation fname) =>
      if some fname = timestamp_field_name then CanSplitDoBetter.findTraceIdsAggregation none
      else CanSplitDoBetter.from_request_sort_fields request timestamp_field_name
    | _ => CanSplitDoBetter.from_request_sort_fields request timestamp_field_name
  else CanSplitDoBetter.from_request_sort_fields request timestamp_field_name

/-- CanSplitDoBetter::can_be_better: whether the split can still contribute a
document better than the recorded worst hit; variants with no recorded bound
accept every split. -/
def CanSplitDoBetter.can_be_better : CanSplitDoBetter → SplitIdAndFooterOffsets → Bool
  | CanSplitDoBetter.splitIdHigher (some split_id), split =>
      decide (split.split_id ≥ split_id)
  | CanSplitDoBetter.splitTimestampHigher (some timestamp), split =>
      decide (split.timestamp_end_get ≥ timestamp)
  | CanSplitDoBetter.findTraceIdsAggregation (some timestamp), split =>
      decide (split.timestamp_end_get ≥ timestamp)
  | CanSplitDoBetter.splitTimestampLower (some timestamp), split =>
      decide (split.timestamp_start_get ≤ timestamp)
  | _, _ => true

/-- Modelled from the spec: quickwit_common::div_ceil (quickwit-common lib.rs,
not under src/) — "convert to seconds: ceil division for Higher variants"
(spec 4.6); exact ceiling division for a positive divisor. -/
def div_ceil (lhs rhs : Int) : Int := -(Int.fdiv (-lhs) rhs)

/-- CanSplitDoBetter::record_new_worst_hit: store the worst retained hit's
bound; an i64 sort value is taken as nanoseconds and converted to seconds,
with div_ceil for the Higher/FindTraceIds variants and Rust's truncating
division for the Lower variant. -/
def CanSplitDoBetter.record_new_worst_hit : CanSplitDoBetter → PartialHit → CanSplitDoBetter
  | CanSplitDoBetter.uninformative, _ => CanSplitDoBetter.uninformative
  | CanSplitDoBetter.splitIdHigher _, hit => CanSplitDoBetter.splitIdHigher (some hit.split_id)
  | CanSplitDoBetter.splitTimestampHigher t, hit =>
    match hit.sort_value with
    | some (SortValue.i64 timestamp_ns) =>
        CanSplitDoBetter.splitTimestampHigher (some (div_ceil timestamp_ns 1000000000))
    | _ => CanSplitDoBetter.splitTimestampHigher t
  | CanSplitDoBetter.findTraceIdsAggregation t, hit =>
    match hit.sort_value with
    | some (SortValue.i64 timestamp_ns) =>
        CanSplitDoBetter.findTraceIdsAggregation (some (div_ceil timestamp_ns 1000000000))
    | _ => CanSplitDoBetter.findTraceIdsAggregation t
  | CanSplitDoBetter.splitTimestampLower t, hit =>
    match hit.sort_value with
    | some (SortValue.i64 timestamp_ns) =>
        CanSplitDoBetter.splitTimestampLower (some (Int.tdiv timestamp_ns 1000000000))
    | _ => CanSplitDoBetter.splitTimestampLower t

/-- The matches!(split_filter, FindTraceIdsAggregation(_)) test of leaf.rs. -/
def CanSplitDoBetter.isFindTraceIdsAggregation : CanSplitDoBetter → Bool
  | CanSplitDoBetter.findTraceIdsAggregation _ => true
  | _ => false

/-- leaf_search's run_all_splits flag (leaf.rs lines 854-856): full counting,
or an aggregation other than the trace-id one, forces every split to run. -/
def run_all_splits (request : SearchRequest) (split_filter : CanSplitDoBetter) : Bool :=
  (request.count_hits == CountHits.countAll)
    || (request.aggregation_request.isSome && !split_filter.isFindTraceIdsAggregation)

/-- The per-split outcome of the leaf_search submission loop: skip the split,
or process it with the given (possibly degraded) request. -/
inductive SplitTaskAction where
  | skip
  | process (request : SearchRequest)

/-- The body of the leaf_search submission loop (leaf.rs lines 877-884): a
split the filter rejects is skipped unless run_all is set, in which case it is
processed with max_hits 0, start_offset 0 and cleared sort_fields. -/
def leaf_search_split_handling (run_all : Bool) (split_filter : CanSplitDoBetter)
    (request : SearchRequest) (split : SplitIdAndFooterOffsets) : SplitTaskAction :=
  if !split_filter.can_be_better split then
    if !run_all then SplitTaskAction.skip
    else SplitTaskAction.process
      { request with max_hits := 0, start_offset := 0, sort_fields := [] }
  else SplitTaskAction.process request

/-- Modelled from the spec: the quickwit-search SearchError variants surfaced
by leaf.rs (error.rs is not under src/). -/
inductive SearchError where
  | invalidQuery (msg : String)
  | internal (msg : String)
deriving DecidableEq, Repr

/-- Modelled from the spec: the Display strings of SearchError (error.rs not
under src/). -/
def SearchError.message : SearchError → String
  | SearchError.invalidQuery m => "invalid query: " ++ m
  | SearchError.internal m => "internal error: " ++ m

/-- A per-split failure entry of the leaf response. -/
structure SplitSearchError where
  split_id : String
  error : String
  retryable_error : Bool
deriving DecidableEq, Repr

/-- The parts of a LeafSearchResponse this development needs. -/
structure LeafSearchResponse where
  num_hits : Nat
  partial_hits : List PartialHit
  failed_splits : List SplitSearchError
deriving DecidableEq, Repr

/-- The IO outcomes of one leaf_search_single_split run, each embedded as the
result the corresponding await produced: the result-cache lookup, opening the
index, building the collector, building the tantivy query, warmup, and the
CPU-pool search task (whose outer error is a panic). -/
structure SingleSplitEnv where
  cached_answer : Option LeafSearchResponse
  open_index_result : Except SearchError Unit
  collector_result : Except SearchError Unit
  query_build_result : Except SearchError Unit
  warmup_result : Except SearchError Unit
  search_task_result : Except Unit (Except SearchError LeafSearchResponse)

/-- leaf.rs leaf_search_single_split: rewrite the request, consult the result
cache, then open the index, build the collector, parse the query AST (a parse
failure raises InvalidQuery — the message string of the serde error is
abstracted), build the query, warm up, and run the search on the CPU pool
(a panic becomes an Internal error naming the split). The cache put on
success is a side effect outside this model. -/
def leaf_search_single_split (env : SingleSplitEnv) (search_request : SearchRequest)
    (split : SplitIdAndFooterOffsets) (timestamp_field : Option String) :
    Except SearchError LeafSearchResponse :=
  let search_request := rewrite_request search_request split timestamp_field
  match env.cached_answer with
  | some cached => Except.ok cached
  | none =>
    match env.open_index_result with
    | Except.error e => Except.error e
    | Except.ok _ =>
      match env.collector_result with
      | Except.error e => Except.error e
      | Except.ok _ =>
        match search_request.query_ast with
        | none => Except.error (SearchError.invalidQuery "invalid query ast json")
        | some _ =>
          match env.query_build_result with
          | Except.error e => Except.error e
          | Except.ok _ =>
            match env.warmup_result with
            | Except.error e => Except.error e
            | Except.ok _ =>
              match env.search_task_result with
              | Except.error _ =>
                  Except.error
                    (SearchError.internal ("leaf search panicked. split=" ++ split.split_id))
              | Except.ok r => r

/-- leaf.rs leaf_search_single_split_wrapper, restricted to the failure
entries it adds to the incremental merge collector: a failed split is recorded
with its error's display string and retryable_error true; a successful split
whose aggregation merge fails (add_split error, abstracted as
aggregation_merge_error) is also recorded as retryable. -/
def leaf_search_single_split_wrapper_failures
    (res : Except SearchError LeafSearchResponse) (split : SplitIdAndFooterOffsets)
    (aggregation_merge_error : Option String) : List SplitSearchError :=
  match res with
  | Except.ok _ =>
    match aggregation_merge_error with
    | some err =>
        [⟨split.split_id, "Error parsing aggregation result: " ++ err, true⟩]
    | none => []
  | Except.error err => [⟨split.split_id, err.message, true⟩]

/-- What one worker-side run of a submitted CPU task produced: whether the
closure was ever invoked, and the value (if any) sent back on the channel. -/
structure WorkerOutcome (α : Type) where
  executed_task : Bool
  sent_result : Option α
deriving Repr

/-- The pending/ongoing gauge pair of a thread pool. -/
structure PoolGauges where
  pending_tasks : Int
  ongoing_tasks : Int
deriving DecidableEq, Repr

/-- The closure ThreadPool::run_cpu_intensive spawns on the rayon pool
(thread_pool.rs lines 98-108): drop the pending-tasks gauge guard, then check
tx.is_closed() — which tokio's oneshot channel reports as true exactly when
the receiving future handed to the submitter has been dropped — and return
without touching the task if so; otherwise bump the ongoing gauge, run the
task, release the gauge and send the result. `tx_closed_at_pickup` is the
channel state the worker observes at that check. -/
def run_cpu_intensive_worker {α : Type} (gauges : PoolGauges) (tx_closed_at_pickup : Bool)
    (cpu_heavy_task : Unit → α) : PoolGauges × WorkerOutcome α :=
  let g1 : PoolGauges := { gauges with pending_tasks := gauges.pending_tasks - 1 }
  if tx_closed_at_pickup then (g1, ⟨false, none⟩)
  else
    let g2 : PoolGauges := { g1 with ongoing_tasks := g1.ongoing_tasks + 1 }
    let result := cpu_heavy_task ()
    let g3 : PoolGauges := { g2 with ongoing_tasks := g2.ongoing_tasks - 1 }
    (g3, ⟨true, some result⟩)

/-- A sample split used to instantiate theorems on concrete inputs. -/
def wSplit : SplitIdAndFooterOffsets := ⟨"split-0", 0, 0, some 1, some 5⟩

/-- A sample request with default sorting and underestimated counting. -/
def wRequest : SearchRequest :=
  ⟨some QueryAst.matchAll, none, none, 10, 0, [], none, CountHits.underestimate⟩

/-- The sample request with full hit counting. -/
def wRequestCountAll : SearchRequest := { wRequest with count_hits := CountHits.countAll }

/-- Lemma: the transform of a Bool node with no must and no filter children
leaves both the node and the visitor state unchanged. -/
theorem transform_bool_no_positive (v : RemoveTimestampRange)
    (mustNot should : List QueryAst) :
    transform v (QueryAst.bool [] mustNot should []) =
      (some (QueryAst.bool [] mustNot should []), v) := by
  unfold transform transformList
  rfl

/-- C1: after accumulating the query and request bounds, an Included lower
bound at T survives in the emitted range iff T is strictly above the split's
inclusive start, an Excluded lower bound iff T is at or above it; mirrored
for upper bounds against the split's inclusive end; a dropped bound becomes
Unbounded, and with no split bound every accumulated bound is kept. -/
theorem C1_final_bound_kept (T s : Int) (b : Bound DateTime) :
    ((finalStartTimestamp (Bound.included T) (some s) = Bound.included T ↔ T > s) ∧
     (finalStartTimestamp (Bound.included T) (some s) = Bound.unbounded ↔ ¬ T > s)) ∧
    ((finalStartTimestamp (Bound.excluded T) (some s) = Bound.excluded T ↔ T ≥ s) ∧
     (finalStartTimestamp (Bound.excluded T) (some s) = Bound.unbounded ↔ ¬ T ≥ s)) ∧
    ((finalEndTimestamp (Bound.included T) (some s) = Bound.included T ↔ T < s) ∧
     (finalEndTimestamp (Bound.included T) (some s) = Bound.unbounded ↔ ¬ T < s)) ∧
    ((finalEndTimestamp (Bound.excluded T) (some s) = Bound.excluded T ↔ T ≤ s) ∧
     (finalEndTimestamp (Bound.excluded T) (some s) = Bound.unbounded ↔ ¬ T ≤ s)) ∧
    finalStartTimestamp b none = b ∧ finalEndTimestamp b none = b := by
  refine ⟨⟨?_, ?_⟩, ⟨?_, ?_⟩, ⟨?_, ?_⟩, ⟨?_, ?_⟩, ?_, ?_⟩ <;>
    first
      | (simp only [finalStartTimestamp, finalEndTimestamp]
         split_ifs with h <;> simp [h])
      | (cases b <;> rfl)

/-- C4 counterexample: merging an Included and an Excluded bound that sit at
the same value returns the Excluded bound, not the Included one, in all four
configurations. -/
theorem C4_cex :
    max_bound (Bound.included (5 : Int)) (Bound.excluded 5) ≠ Bound.included 5 ∧
    max_bound (Bound.excluded (5 : Int)) (Bound.included 5) ≠ Bound.included 5 ∧
    min_bound (Bound.included (5 : Int)) (Bound.excluded 5) ≠ Bound.included 5 ∧
    min_bound (Bound.excluded (5 : Int)) (Bound.included 5) ≠ Bound.included 5 := by
  decide

/-- C4 (amended): when intersecting two bounds at the same value, one
Included(T) and one Excluded(T), max_bound (lower-bound merge) and min_bound
(upper-bound merge) both return the Excluded bound — the tighter of the two. -/
theorem C4_same_value_excluded_dominates (T : Int) :
    max_bound (Bound.included T) (Bound.excluded T) = Bound.excluded T ∧
    max_bound (Bound.excluded T) (Bound.included T) = Bound.excluded T ∧
    min_bound (Bound.included T) (Bound.excluded T) = Bound.excluded T ∧
    min_bound (Bound.excluded T) (Bound.included T) = Bound.excluded T := by
  simp [max_bound, min_bound]

/-- C9: when the one-shot channel is already closed at pickup — i.e. the
future returned to the submitter was dropped before a worker picked the task
up — the worker never invokes the closure, sends nothing, and only releases
the pending-tasks gauge. -/
theorem C9_cancelled_task_not_executed {α : Type} (gauges : PoolGauges) (task : Unit → α) :
    (run_cpu_intensive_worker gauges true task).2.executed_task = false ∧
    (run_cpu_intensive_worker gauges true task).2.sent_result = none ∧
    (run_cpu_intensive_worker gauges true task).1 =
      { gauges with pending_tasks := gauges.pending_tasks - 1 } :=
  ⟨rfl, rfl, rfl⟩

/-- C10: a split filter freshly built by CanSplitDoBetter::from_request
carries no recorded bound, so can_be_better accepts every split: pruning can
only start once a worst hit has been recorded. -/
theorem C10_fresh_filter_accepts_every_split (request : SearchRequest)
    (timestamp_field_name : Option String) (split : SplitIdAndFooterOffsets) :
    (CanSplitDoBetter.from_request request timestamp_field_name).can_be_better split = true := by
  have aux : ∀ r t,
      (CanSplitDoBetter.from_request_sort_fields r t).can_be_better split = true := by
    intro r t
    unfold CanSplitDoBetter.from_request_sort_fields
    split
    · rfl
    · split_ifs <;> rfl
    · rfl
  unfold CanSplitDoBetter.from_request
  split_ifs with h
  · split
    · split_ifs with h2
      · rfl
      · exact aux request timestamp_field_name
    · exact aux request timestamp_field_name
  · exact aux request timestamp_field_name

/-- Lemma: remove_redundant_timestamp_range leaves the request untouched when
the query AST string does not parse. -/
theorem remove_redundant_timestamp_range_none (req : SearchRequest)
    (split : SplitIdAndFooterOffsets) (tf : String) (h : req.query_ast = none) :
    remove_redundant_timestamp_range req split tf = req := by
  unfold remove_redundant_timestamp_range
  rw [h]

/-- Lemma: with a parseable query AST, remove_redundant_timestamp_range
clears both request-level timestamps. -/
theorem remove_redundant_timestamp_range_clears (req : SearchRequest)
    (split : SplitIdAndFooterOffsets) (tf : String) (ast : QueryAst)
    (h : req.query_ast = some ast) :
    (remove_redundant_timestamp_range req split tf).start_timestamp = none ∧
    (remove_redundant_timestamp_range req split tf).end_timestamp = none := by
  unfold remove_redundant_timestamp_range
  rw [h]
  exact ⟨rfl, rfl⟩

/-- C2 counterexample: with no timestamp field configured, rewrite_request
leaves the request-level start_timestamp in place, so the claim's
unconditional clearing fails. -/
theorem C2_cex :
    (rewrite_request
        ⟨some QueryAst.matchAll, some 5, some 6, 10, 0, [], none, CountHits.underestimate⟩
        ⟨"split-0", 0, 0, some 1, some 9⟩ none).start_timestamp ≠ none := by
  decide

/-- C2 (amended): whenever a timestamp field is configured and the request's
query AST parses, the rewrite clears both start_timestamp and end_timestamp. -/
theorem C2_rewrite_clears_request_bounds (req : SearchRequest)
    (split : SplitIdAndFooterOffsets) (tf : String) (ast : QueryAst)
    (h : req.query_ast = some ast) :
    (rewrite_request req split (some tf)).start_timestamp = none ∧
    (rewrite_request req split (some tf)).end_timestamp = none := by
  unfold rewrite_request
  split_ifs with hm
  · exact remove_redundant_timestamp_range_clears _ _ _ ast h
  · exact remove_redundant_timestamp_range_clears _ _ _ ast h

/-- C2 witness: the amended theorem at a concrete request and split. -/
theorem C2_witness :
    ((⟨some QueryAst.matchAll, some 3, some 7, 10, 0, [], none,
        CountHits.underestimate⟩ : SearchRequest).query_ast = some QueryAst.matchAll) ∧
    ((rewrite_request
        ⟨some QueryAst.matchAll, some 3, some 7, 10, 0, [], none, CountHits.underestimate⟩
        ⟨"s", 0, 0, some 1, some 9⟩ (some "timestamp")).start_timestamp = none ∧
     (rewrite_request
        ⟨some QueryAst.matchAll, some 3, some 7, 10, 0, [], none, CountHits.underestimate⟩
        ⟨"s", 0, 0, some 1, some 9⟩ (some "timestamp")).end_timestamp = none) :=
  ⟨rfl, C2_rewrite_clears_request_bounds _ _ _ QueryAst.matchAll rfl⟩

/-- C3: when the top-level AST is a Bool with nonempty should and empty must
and filter, and a time bound survives the intersection with the split, the
rewritten AST is a fresh Bool whose must holds exactly the original Bool
unchanged and whose filter holds exactly the derived nanosecond Range. -/
theorem C3_should_preservation (req : SearchRequest) (split : SplitIdAndFooterOffsets)
    (tf : String) (mustNot should : List QueryAst)
    (h : req.query_ast = some (QueryAst.bool [] mustNot should []))
    (hsh : should ≠ [])
    (hs : finalStartTimestamp (requestStartBound req)
            (split.timestamp_start.map fromTimestampSecs) ≠ Bound.unbounded ∨
          finalEndTimestamp (requestEndBound req)
            (split.timestamp_end.map fromTimestampSecs) ≠ Bound.unbounded) :
    (remove_redundant_timestamp_range req split tf).query_ast =
      some (QueryAst.bool [QueryAst.bool [] mustNot should []] [] []
        [QueryAst.range
          ⟨tf,
           map_bound (finalStartTimestamp (requestStartBound req)
             (split.timestamp_start.map fromTimestampSecs))
             (fun b => JsonLiteral.num (intoTimestampNanos b)),
           map_bound (finalEndTimestamp (requestEndBound req)
             (split.timestamp_end.map fromTimestampSecs))
             (fun b => JsonLiteral.num (intoTimestampNanos b))⟩]) := by
  obtain ⟨s0, ss, rfl⟩ := List.exists_cons_of_ne_nil hsh
  unfold remove_redundant_timestamp_range
  rw [h]
  simp only [transform_bool_no_positive]
  rw [if_pos hs]
  rfl

/-- C3 witness: the should-preservation theorem at the regression-test
configuration (split covering seconds 1700001000..1700003000, a pure
should-Bool AST, request start 1700002000). -/
theorem C3_witness :
    ((⟨some (QueryAst.bool [] [] [QueryAst.matchAll] []), some 1700002000, none, 10, 0,
        [], none, CountHits.underestimate⟩ : SearchRequest).query_ast =
      some (QueryAst.bool [] [] [QueryAst.matchAll] [])) ∧
    ([QueryAst.matchAll] ≠ ([] : List QueryAst)) ∧
    (remove_redundant_timestamp_range
        ⟨some (QueryAst.bool [] [] [QueryAst.matchAll] []), some 1700002000, none, 10, 0,
          [], none, CountHits.underestimate⟩
        ⟨"s", 0, 0, some 1700001000, some 1700003000⟩ "timestamp").query_ast =
      some (QueryAst.bool [QueryAst.bool [] [] [QueryAst.matchAll] []] [] []
        [QueryAst.range
          ⟨"timestamp",
           map_bound (finalStartTimestamp (requestStartBound
             ⟨some (QueryAst.bool [] [] [QueryAst.matchAll] []), some 1700002000, none, 10, 0,
               [], none, CountHits.underestimate⟩)
             ((⟨"s", 0, 0, some 1700001000, some 1700003000⟩ :
                SplitIdAndFooterOffsets).timestamp_start.map fromTimestampSecs))
             (fun b => JsonLiteral.num (intoTimestampNanos b)),
           map_bound (finalEndTimestamp (requestEndBound
             ⟨some (QueryAst.bool [] [] [QueryAst.matchAll] []), some 1700002000, none, 10, 0,
               [], none, CountHits.underestimate⟩)
             ((⟨"s", 0, 0, some 1700001000, some 1700003000⟩ :
                SplitIdAndFooterOffsets).timestamp_end.map fromTimestampSecs))
             (fun b => JsonLiteral.num (intoTimestampNanos b))⟩]) :=
  ⟨rfl, by simp,
   C3_should_preservation _ _ "timestamp" [] [QueryAst.matchAll] rfl (by simp)
     (Or.inl (by decide))⟩

/-- C5 counterexample: for the negative sort value -1500000000 ns, the Lower
variant stores -1 (truncation toward zero), while floor(-1.5) = -2, so the
claim's floor rounding fails for negative nanosecond values. -/
theorem C5_cex :
    (CanSplitDoBetter.splitTimestampLower none).record_new_worst_hit
        ⟨"split-0", 0, 0, some (SortValue.i64 (-1500000000))⟩
      = CanSplitDoBetter.splitTimestampLower (some (-1)) ∧
    Int.fdiv (-1500000000 : Int) 1000000000 = -2 ∧
    ((-1 : Int) ≠ -2) := by
  refine ⟨by decide, by decide, by decide⟩

/-- C5 (amended): record_new_worst_hit stores exactly ceil(ns / 1e9) seconds
on the SplitTimestampHigher and FindTraceIdsAggregation variants (the two
inequalities characterize div_ceil as the exact ceiling), and stores ns / 1e9
truncated toward zero on SplitTimestampLower — which coincides with floor for
nonnegative ns but exceeds floor by one on negative non-multiples. -/
theorem C5_rounding_conversion (ns : Int) (prev : Option Int) (sid : String)
    (seg doc_id : Nat) :
    (CanSplitDoBetter.splitTimestampHigher prev).record_new_worst_hit
        ⟨sid, seg, doc_id, some (SortValue.i64 ns)⟩
      = CanSplitDoBetter.splitTimestampHigher (some (div_ceil ns 1000000000)) ∧
    (CanSplitDoBetter.findTraceIdsAggregation prev).record_new_worst_hit
        ⟨sid, seg, doc_id, some (SortValue.i64 ns)⟩
      = CanSplitDoBetter.findTraceIdsAggregation (some (div_ceil ns 1000000000)) ∧
    (CanSplitDoBetter.splitTimestampLower prev).record_new_worst_hit
        ⟨sid, seg, doc_id, some (SortValue.i64 ns)⟩
      = CanSplitDoBetter.splitTimestampLower (some (Int.tdiv ns 1000000000)) ∧
    ns ≤ 1000000000 * div_ceil ns 1000000000 ∧
    1000000000 * (div_ceil ns 1000000000 - 1) < ns ∧
    (0 ≤ ns → Int.tdiv ns 1000000000 = Int.fdiv ns 1000000000) := by
  refine ⟨rfl, rfl, rfl, ?_, ?_, ?_⟩
  · unfold div_ceil
    rw [Int.fdiv_eq_ediv _ (by norm_num : (0 : Int) ≤ 1000000000)]
    omega
  · unfold div_ceil
    rw [Int.fdiv_eq_ediv _ (by norm_num : (0 : Int) ≤ 1000000000)]
    omega
  · intro hns
    rw [Int.tdiv_eq_ediv hns (by norm_num : (0 : Int) ≤ 1000000000),
      Int.fdiv_eq_ediv _ (by norm_num : (0 : Int) ≤ 1000000000)]

/-- C5 witness: the rounding theorem at the concrete value 1500000000 ns,
discharging the nonnegativity hypothesis of the truncation-equals-floor part. -/
theorem C5_witness :
    ((0 : Int) ≤ 1500000000) ∧
    Int.tdiv (1500000000 : Int) 1000000000 = Int.fdiv (1500000000 : Int) 1000000000 :=
  ⟨by decide, (C5_rounding_conversion 1500000000 none "s" 0 0).2.2.2.2.2 (by decide)⟩

/-- C6: in the leaf_search loop, a split rejected by the filter is skipped
exactly when run_all_splits is false, where run_all_splits holds iff counting
is CountAll or an aggregation is present and the filter variant is not
FindTraceIdsAggregation; when run_all_splits holds the rejected split is still
processed with max_hits 0, start_offset 0 and cleared sort_fields, and an
accepted split is processed with the untouched request. -/
theorem C6_split_skip_handling (request : SearchRequest) (split_filter : CanSplitDoBetter)
    (split : SplitIdAndFooterOffsets) :
    (run_all_splits request split_filter = true ↔
      (request.count_hits = CountHits.countAll ∨
        (request.aggregation_request.isSome = true ∧
         split_filter.isFindTraceIdsAggregation = false))) ∧
    (leaf_search_split_handling (run_all_splits request split_filter) split_filter request split
        = SplitTaskAction.skip ↔
      (split_filter.can_be_better split = false ∧
       run_all_splits request split_filter = false)) ∧
    (split_filter.can_be_better split = false → run_all_splits request split_filter = true →
      leaf_search_split_handling (run_all_splits request split_filter) split_filter request split
        = SplitTaskAction.process
            { request with max_hits := 0, start_offset := 0, sort_fields := [] }) ∧
    (split_filter.can_be_better split = true →
      leaf_search_split_handling (run_all_splits request split_filter) split_filter request split
        = SplitTaskAction.process request) := by
  refine ⟨?_, ?_, ?_, ?_⟩
  · simp [run_all_splits, Bool.or_eq_true, Bool.and_eq_true, beq_iff_eq, Bool.not_eq_true']
  all_goals
    unfold leaf_search_split_handling
    cases hc : split_filter.can_be_better split <;>
      cases hr : run_all_splits request split_filter <;> simp [hc, hr]

/-- C6 witness: a rejected split is skipped when run_all_splits is false, and
processed with a degraded request when hit counting forces all splits. -/
theorem C6_witness :
    ((CanSplitDoBetter.splitTimestampHigher (some 10)).can_be_better wSplit = false) ∧
    (run_all_splits wRequest (CanSplitDoBetter.splitTimestampHigher (some 10)) = false) ∧
    leaf_search_split_handling
        (run_all_splits wRequest (CanSplitDoBetter.splitTimestampHigher (some 10)))
        (CanSplitDoBetter.splitTimestampHigher (some 10)) wRequest wSplit
      = SplitTaskAction.skip ∧
    leaf_search_split_handling
        (run_all_splits wRequestCountAll (CanSplitDoBetter.splitTimestampHigher (some 10)))
        (CanSplitDoBetter.splitTimestampHigher (some 10)) wRequestCountAll wSplit
      = SplitTaskAction.process
          { wRequestCountAll with max_hits := 0, start_offset := 0, sort_fields := [] } :=
  ⟨by decide, by decide,
   ((C6_split_skip_handling wRequest (CanSplitDoBetter.splitTimestampHigher (some 10))
       wSplit).2.1).mpr ⟨by decide, by decide⟩,
   (C6_split_skip_handling wRequestCountAll (CanSplitDoBetter.splitTimestampHigher (some 10))
       wSplit).2.2.1 (by decide) (by decide)⟩

/-- Lemma: the rewrite keeps an unparseable query AST unparseable (the first
rewrite step touches only sort_fields, the second returns early). -/
theorem rewrite_request_query_ast_none (req : SearchRequest)
    (split : SplitIdAndFooterOffsets) (tf : Option String) (h : req.query_ast = none) :
    (rewrite_request req split tf).query_ast = none := by
  have hq : (if req.max_hits = 0 then { req with sort_fields := [] } else req).query_ast
      = none := by
    split_ifs <;> simpa using h
  cases tf with
  | none =>
    simp only [rewrite_request]
    exact hq
  | some t =>
    simp only [rewrite_request]
    rw [remove_redundant_timestamp_range_none _ _ _ hq]
    exact hq

/-- C7 counterexample: a request whose query AST does not parse produces a
per-split failure entry in the merge collector, contrary to the claim that no
per-split failure is recorded for an invalid query. -/
theorem C7_cex :
    leaf_search_single_split_wrapper_failures
        (leaf_search_single_split
          ⟨none, Except.ok (), Except.ok (), Except.ok (), Except.ok (),
            Except.ok (Except.ok ⟨0, [], []⟩)⟩
          ⟨none, none, none, 10, 0, [], none, CountHits.underestimate⟩
          ⟨"split-0", 0, 0, none, none⟩ none)
        ⟨"split-0", 0, 0, none, none⟩ none ≠ [] := by
  decide

/-- C7 (amended): with a cache miss and successful index open and collector
build, a request whose query AST does not parse makes the single-split search
fail with an InvalidQuery error, and the wrapper records it in the response's
per-split failure list as a retryable failure — the request is not failed
before splits are processed. -/
theorem C7_invalid_query_recorded (env : SingleSplitEnv) (req : SearchRequest)
    (split : SplitIdAndFooterOffsets) (tf : Option String)
    (hast : req.query_ast = none) (hcache : env.cached_answer = none)
    (hopen : env.open_index_result = Except.ok ())
    (hcoll : env.collector_result = Except.ok ()) :
    leaf_search_single_split env req split tf
      = Except.error (SearchError.invalidQuery "invalid query ast json") ∧
    leaf_search_single_split_wrapper_failures
        (leaf_search_single_split env req split tf) split none
      = [⟨split.split_id, "invalid query: invalid query ast json", true⟩] := by
  have h1 : leaf_search_single_split env req split tf
      = Except.error (SearchError.invalidQuery "invalid query ast json") := by
    simp only [leaf_search_single_split]
    rw [hcache, hopen, hcoll, rewrite_request_query_ast_none req split tf hast]
  exact ⟨h1, by rw [h1]; rfl⟩

/-- C7 witness: the invalid-query theorem at a concrete environment, request
and split. -/
theorem C7_witness :
    ((⟨none, none, none, 10, 0, [], none, CountHits.underestimate⟩ :
        SearchRequest).query_ast = none) ∧
    (leaf_search_single_split
        ⟨none, Except.ok (), Except.ok (), Except.ok (), Except.ok (),
          Except.ok (Except.ok ⟨0, [], []⟩)⟩
        ⟨none, none, none, 10, 0, [], none, CountHits.underestimate⟩
        ⟨"w7", 0, 0, none, none⟩ none
      = Except.error (SearchError.invalidQuery "invalid query ast json") ∧
    leaf_search_single_split_wrapper_failures
        (leaf_search_single_split
          ⟨none, Except.ok (), Except.ok (), Except.ok (), Except.ok (),
            Except.ok (Except.ok ⟨0, [], []⟩)⟩
          ⟨none, none, none, 10, 0, [], none, CountHits.underestimate⟩
          ⟨"w7", 0, 0, none, none⟩ none)
        ⟨"w7", 0, 0, none, none⟩ none
      = [⟨"w7", "invalid query: invalid query ast json", true⟩]) :=
  ⟨rfl, C7_invalid_query_recorded _ _ _ none rfl rfl rfl rfl⟩

/-- C8 counterexample: a split-open failure (footer fetch error) is recorded
in the failure list with retryable_error true, contradicting the claim that
split-open and format errors are recorded as non-retryable. -/
theorem C8_cex :
    leaf_search_single_split_wrapper_failures
        (leaf_search_single_split
          ⟨none, Except.error (SearchError.internal "failed to open split footer"),
            Except.ok (), Except.ok (), Except.ok (), Except.ok (Except.ok ⟨0, [], []⟩)⟩
          ⟨some QueryAst.matchAll, none, none, 10, 0, [], none, CountHits.underestimate⟩
          ⟨"split-0", 0, 0, none, none⟩ none)
        ⟨"split-0", 0, 0, none, none⟩ none
      = [⟨"split-0", "internal error: failed to open split footer", true⟩] ∧
    (true ≠ false) := by
  refine ⟨by decide, by decide⟩

/-- C8 (amended): every per-split failure the wrapper records — split-open and
format errors included — carries retryable_error true; no error kind is
recorded as non-retryable. -/
theorem C8_failures_always_retryable (res : Except SearchError LeafSearchResponse)
    (split : SplitIdAndFooterOffsets) (aggregation_merge_error : Option String)
    (e : SplitSearchError)
    (he : e ∈ leaf_search_single_split_wrapper_failures res split aggregation_merge_error) :
    e.retryable_error = true := by
  unfold leaf_search_single_split_wrapper_failures at he
  cases res with
  | ok r =>
    cases aggregation_merge_error with
    | some err =>
      simp only [List.mem_singleton] at he
      rw [he]
    | none => simp at he
  | error err =>
    simp only [List.mem_singleton] at he
    rw [he]

/-- C8 witness: the retryability theorem at the failure entry recorded for a
concrete split-open error. -/
theorem C8_witness :
    ((⟨"w8", "internal error: disk", true⟩ : SplitSearchError) ∈
      leaf_search_single_split_wrapper_failures
        (Except.error (SearchError.internal "disk")) ⟨"w8", 0, 0, none, none⟩ none) ∧
    (⟨"w8", "internal error: disk", true⟩ : SplitSearchError).retryable_error = true :=
  ⟨by decide,
   C8_failures_always_retryable (Except.error (SearchError.internal "disk"))
     ⟨"w8", 0, 0, none, none⟩ none ⟨"w8", "internal error: disk", true⟩ (by decide)⟩

end Quickwit
